import Mathlib

/-!
Shallow embedding of the recipe-archive template layout subsystem:
geometry primitives, the boundary constraint engine, the overlap
detector, the content overflow estimator, the template mutation API and
the storage-level default-template protection.  Numbers that the
TypeScript source treats as IEEE doubles are modelled as exact rationals
(`ℚ`); all arithmetic in the modelled code is `+`, `-`, `*`, `/`,
`min`, `max`, `floor` and `ceil`, so the rational model is faithful up
to rounding of float literals (`0.35 = 35/100`, `1.2 = 12/10`,
`2.5 = 5/2`, all exact binary-free decimals kept symbolic).
-/

namespace RecipeArchive

/-- Section content kind, from `TemplateSection.type` in the template
types module (`'title' | 'author' | 'ingredients' | 'steps' | 'notes' |
'image'`). -/
inductive SectionType where
  | title
  | author
  | ingredients
  | steps
  | notes
  | image
deriving DecidableEq

/-- `Position` from the template types module: `x`, `y` in percent of the
card. -/
@[ext]
structure Position where
  x : ℚ
  y : ℚ
deriving DecidableEq

/-- `Size` from the template types module: `width`, `height` in percent of
the card. -/
@[ext]
structure Size where
  width : ℚ
  height : ℚ
deriving DecidableEq

/-- `BorderStyle` from the template types module. -/
structure BorderStyle where
  width : ℚ
  style : String
  color : String
deriving DecidableEq

/-- `SectionStyle` from the template types module. -/
structure SectionStyle where
  fontSize : ℚ
  fontFamily : String
  fontWeight : String
  textAlign : String
  color : String
  backgroundColor : Option String
  padding : ℚ
  border : Option BorderStyle
deriving DecidableEq

/-- `TemplateSection` from the template types module. -/
@[ext]
structure TemplateSection where
  id : String
  type : SectionType
  position : Position
  size : Size
  style : SectionStyle
  zIndex : ℚ
deriving DecidableEq

/-- `PrintSize` from the template types module: physical medium,
`width`/`height` in millimeters. -/
structure PrintSize where
  name : String
  width : ℚ
  height : ℚ
  type : String
deriving DecidableEq

/-- `Margins` from the template types module. -/
structure Margins where
  top : ℚ
  right : ℚ
  bottom : ℚ
  left : ℚ
deriving DecidableEq

/-- `Template` from the template types module. -/
structure Template where
  id : String
  name : String
  size : PrintSize
  isDefault : Bool
  sections : List TemplateSection
  margins : Margins
  createdAt : String
  updatedAt : String
deriving DecidableEq

/-- `Recipe` from the recipe types module (fields per the design
document: `author` and `notes` are nullable strings, `ingredients`,
`steps` and `tags` are string arrays; `images` and `sourceImage` carry
no layout content and are modelled as plain strings). -/
structure Recipe where
  id : String
  title : String
  author : Option String
  ingredients : List String
  steps : List String
  notes : Option String
  images : List String
  tags : List String
  sourceImage : Option String
  createdAt : String
  updatedAt : String
deriving DecidableEq

/-- `SectionOverlap` from the template types module. -/
structure SectionOverlap where
  section1Id : String
  section2Id : String
  overlapArea : ℚ
deriving DecidableEq

/-!
## Boundary Constraint Engine (`constrainSectionToBoundaries`)

Source (template operations service):
```
const constrained = { ...section };
constrained.position = {
  x: Math.max(0, Math.min(100 - section.size.width, section.position.x)),
  y: Math.max(0, Math.min(100 - section.size.height, section.position.y)),
};
constrained.size = {
  width: Math.max(1, Math.min(100 - constrained.position.x, section.size.width)),
  height: Math.max(1, Math.min(100 - constrained.position.y, section.size.height)),
};
```
-/
/-- `constrainSectionToBoundaries` from the template operations service:
clamp the position first using the original size, then clamp the size
against the clamped position. -/
def constrainSectionToBoundaries (s : TemplateSection) : TemplateSection :=
  let px : ℚ := max 0 (min (100 - s.size.width) s.position.x)
  let py : ℚ := max 0 (min (100 - s.size.height) s.position.y)
  let w : ℚ := max 1 (min (100 - px) s.size.width)
  let h : ℚ := max 1 (min (100 - py) s.size.height)
  { s with position := { x := px, y := py }, size := { width := w, height := h } }

/-- The boundary invariant stated by the specification for sections
produced by the Boundary Constraint Engine. -/
def boundaryInvariant (s : TemplateSection) : Prop :=
  0 ≤ s.position.x ∧ 0 ≤ s.position.y ∧
    s.position.x + s.size.width ≤ 100 ∧ s.position.y + s.size.height ≤ 100 ∧
    1 ≤ s.size.width ∧ 1 ≤ s.size.height

/-- `clamp(v, lo, hi)` as the specification writes it; the source inlines
it as `Math.max(lo, Math.min(hi, v))`. -/
def clamp (v lo hi : ℚ) : ℚ := max lo (min hi v)

/-- C1 fails as stated: a degenerate input of width 0 at `x = 100` is
clamped to position `x = 100` with width forced up to 1, leaving
`x + width = 101 > 100`. -/
def sectionC1 : TemplateSection :=
  { id := "s1", type := SectionType.notes,
    position := { x := 100, y := 0 }, size := { width := 0, height := 50 },
    style := { fontSize := 12, fontFamily := "Arial", fontWeight := "normal",
               textAlign := "left", color := "#000000", backgroundColor := none,
               padding := 4, border := none },
    zIndex := 1 }

/-!
## Geometry primitives and the Overlap Detector

Source (template operations service): `sectionsOverlap`,
`calculateOverlapArea`, `detectOverlaps`.
-/
/-- The percent-space rectangle a section covers, as both
`sectionsOverlap` and `calculateOverlapArea` build it locally:
`left = x`, `right = x + width`, `top = y`, `bottom = y + height`. -/
structure Rect where
  left : ℚ
  right : ℚ
  top : ℚ
  bottom : ℚ

/-- The rectangle of a section (the `r1`/`r2` locals in the source). -/
def sectionRect (s : TemplateSection) : Rect :=
  { left := s.position.x, right := s.position.x + s.size.width,
    top := s.position.y, bottom := s.position.y + s.size.height }

/-- `sectionsOverlap` from the template operations service: the rectangles
overlap unless one is fully at or beyond a side of the other (touching
edges count as not overlapping). -/
def sectionsOverlap (s1 s2 : TemplateSection) : Bool :=
  let r1 := sectionRect s1
  let r2 := sectionRect s2
  if r1.right ≤ r2.left ∨ r2.right ≤ r1.left ∨
      r1.bottom ≤ r2.top ∨ r2.bottom ≤ r1.top then
    false
  else
    true

/-- `calculateOverlapArea` from the template operations service:
intersection area as a percentage of the smaller section's area, `0` for
an empty intersection or a non-positive smaller area. -/
def calculateOverlapArea (s1 s2 : TemplateSection) : ℚ :=
  let r1 := sectionRect s1
  let r2 := sectionRect s2
  let overlapLeft := max r1.left r2.left
  let overlapRight := min r1.right r2.right
  let overlapTop := max r1.top r2.top
  let overlapBottom := min r1.bottom r2.bottom
  if overlapRight ≤ overlapLeft ∨ overlapBottom ≤ overlapTop then
    0
  else
    let overlapArea := (overlapRight - overlapLeft) * (overlapBottom - overlapTop)
    let area1 := s1.size.width * s1.size.height
    let area2 := s2.size.width * s2.size.height
    let smallerArea := min area1 area2
    if 0 < smallerArea then overlapArea / smallerArea * 100 else 0

/-- `detectOverlaps` from the template operations service: the double loop
`for i in [0, n)`, `for j in [i+1, n)` pushing a `SectionOverlap` for
every pair passing `sectionsOverlap`. -/
def detectOverlaps (t : Template) : List SectionOverlap :=
  let ss := t.sections
  (List.range ss.length).flatMap fun i =>
    (List.range' (i + 1) (ss.length - (i + 1))).filterMap fun j =>
      match ss[i]?, ss[j]? with
      | some s1, some s2 =>
          if sectionsOverlap s1 s2 then
            some { section1Id := s1.id, section2Id := s2.id,
                   overlapArea := calculateOverlapArea s1 s2 }
          else
            none
      | _, _ => none

/-- Specification-side: what the detector emits for an index pair `(i, j)`
of the section list — a `SectionOverlap` exactly when the geometric test
passes. -/
def overlapAt (ss : List TemplateSection) (p : Nat × Nat) : Option SectionOverlap :=
  match ss[p.1]?, ss[p.2]? with
  | some s1, some s2 =>
      if sectionsOverlap s1 s2 then
        some { section1Id := s1.id, section2Id := s2.id,
               overlapArea := calculateOverlapArea s1 s2 }
      else
        none
  | _, _ => none

/-- Specification-side: every index pair `(i, j)` with `i < j < n`, `i`
ascending and, within an `i`, `j` ascending. -/
def indexPairs (n : Nat) : List (Nat × Nat) :=
  (List.range n).flatMap fun i =>
    (List.range n).filterMap fun j => if i < j then some (i, j) else none

/-- Lexicographic order on index pairs: the order in which the double loop
encounters them. -/
def pairLexLt (p q : Nat × Nat) : Prop :=
  p.1 < q.1 ∨ (p.1 = q.1 ∧ p.2 < q.2)

/-- Specification-side: the geometric intersection area of two sections'
rectangles (zero when they do not overlap in an axis). -/
def intersectionAreaSpec (s1 s2 : TemplateSection) : ℚ :=
  let r1 := sectionRect s1
  let r2 := sectionRect s2
  max 0 (min r1.right r2.right - max r1.left r2.left) *
    max 0 (min r1.bottom r2.bottom - max r1.top r2.top)

/-- Specification-side: overlap severity as the specification words it —
the geometric intersection area divided by the smaller of the two
sections' areas, as a percentage, and `0` when the smaller area is 0. -/
def overlapAreaSpec (s1 s2 : TemplateSection) : ℚ :=
  let smallerArea := min (s1.size.width * s1.size.height) (s2.size.width * s2.size.height)
  if smallerArea = 0 then 0
  else intersectionAreaSpec s1 s2 / smallerArea * 100

/-!
## Content Overflow Detection Service

Source: overflow detection service module (`detectOverflow`,
`detectSectionOverflow`, `estimateContentHeight`, `getSectionContent`).
-/
/-- Result of overflow detection for a single section
(`SectionOverflowResult` in the source). -/
structure SectionOverflowResult where
  sectionId : String
  sectionType : SectionType
  hasOverflow : Bool
  estimatedContentHeight : ℚ
  availableHeight : ℚ
  overflowAmount : ℚ
deriving DecidableEq

/-- Result of overflow detection for an entire recipe/template combination
(`OverflowDetectionResult` in the source). -/
structure OverflowDetectionResult where
  hasOverflow : Bool
  sections : List SectionOverflowResult
  overflowingSections : List SectionOverflowResult
deriving DecidableEq

/-- `getSectionContent` from the overflow service: resolve a section's
semantic content from the recipe by type (`recipe.author || ''` and
`recipe.notes || ''` yield the empty string for a missing value,
`join('\n')` is `String.intercalate`). -/
def getSectionContent (ty : SectionType) (r : Recipe) : String :=
  match ty with
  | SectionType.title => r.title
  | SectionType.author => r.author.getD ""
  | SectionType.ingredients => String.intercalate "\n" r.ingredients
  | SectionType.steps => String.intercalate "\n" r.steps
  | SectionType.notes => r.notes.getD ""
  | SectionType.image => ""

/-- Helper for `splitLines`: walk the characters, cutting at every
newline. -/
def splitLinesAux : List Char → List Char → List String
  | [], acc => [String.mk acc.reverse]
  | c :: rest, acc =>
      if c = '\n' then String.mk acc.reverse :: splitLinesAux rest []
      else splitLinesAux rest (c :: acc)

/-- The JavaScript `content.split('\n')` of the source, embedded as a
structural recursion over the character list: every newline cuts, the
number of lines is one more than the number of newlines, and empty
pieces are kept (`''.split('\n')` is `['']`). -/
def splitLines (content : String) : List String :=
  splitLinesAux content.data []

/-- `estimateContentHeight` from the overflow service.  The source's
`section.style.fontSize || DEFAULT_CONFIG.baseFontSize` falls back to
the 12pt base for a zero (falsy) font size; `2.5`, `0.35` and `1.2` are
`avgCharWidthMm`, the point-to-millimeter factor and
`lineHeightMultiplier`. -/
def estimateContentHeight (content : String) (s : TemplateSection) (t : Template)
    (availableWidthPercent : ℚ) : ℚ :=
  if content.length = 0 then 0
  else
    let fontSize : ℚ := if s.style.fontSize = 0 then 12 else s.style.fontSize
    let availableWidthMm := availableWidthPercent / 100 * t.size.width
    let charWidthMm := (5 / 2 : ℚ) * (fontSize / 12)
    let charsPerLine : ℤ := max 1 ⌊availableWidthMm / charWidthMm⌋
    let lines := splitLines content
    let totalLines : ℤ := lines.foldl
      (fun acc line =>
        if line.length = 0 then acc + 1
        else acc + ⌈(line.length : ℚ) / (charsPerLine : ℚ)⌉)
      0
    let lineHeightMm := fontSize * (35 / 100 : ℚ) * (12 / 10 : ℚ)
    let contentHeightMm := (totalLines : ℚ) * lineHeightMm
    contentHeightMm / t.size.height * 100

/-- `detectSectionOverflow` from the overflow service: compare the
estimated content height against the height left after padding
(`padding * 2 / template.size.height * 100` percent). -/
def detectSectionOverflow (r : Recipe) (s : TemplateSection) (t : Template) :
    SectionOverflowResult :=
  let content := getSectionContent s.type r
  let paddingPercent := s.style.padding * 2 / t.size.height * 100
  let availableHeight := s.size.height - paddingPercent
  let availableWidth := s.size.width - paddingPercent
  let estimatedContentHeight := estimateContentHeight content s t availableWidth
  let hasOverflow : Bool := decide (availableHeight < estimatedContentHeight)
  let overflowAmount := if hasOverflow then estimatedContentHeight - availableHeight else 0
  { sectionId := s.id, sectionType := s.type, hasOverflow := hasOverflow,
    estimatedContentHeight := estimatedContentHeight,
    availableHeight := availableHeight, overflowAmount := overflowAmount }

/-- `detectOverflow` from the overflow service: per-section results in
section order, the overflowing subset, and the aggregate flag. -/
def detectOverflow (r : Recipe) (t : Template) : OverflowDetectionResult :=
  let sections := t.sections.map fun s => detectSectionOverflow r s t
  let overflowingSections := sections.filter fun s => s.hasOverflow
  { hasOverflow := decide (0 < overflowingSections.length),
    sections := sections, overflowingSections := overflowingSections }

/-- Specification-side: the claim's height formula — characters per line
from the claimed character-width heuristic, per-line ceilings summed
(empty lines count 1), then `totalLines × fontSize × 0.35 × 1.2`
converted to percent of the print height. -/
def estimateContentHeightSpec (content : String) (fontSize printWidthMm printHeightMm
    availableWidthPercent : ℚ) : ℚ :=
  let availableWidthMm := availableWidthPercent / 100 * printWidthMm
  let charsPerLine : ℤ := max 1 ⌊availableWidthMm / ((5 / 2 : ℚ) * (fontSize / 12))⌋
  let totalLines : ℤ := ((splitLines content).map fun line =>
    if line.length = 0 then (1 : ℤ) else ⌈(line.length : ℚ) / (charsPerLine : ℚ)⌉).sum
  (totalLines : ℚ) * fontSize * (35 / 100 : ℚ) * (12 / 10 : ℚ) / printHeightMm * 100

/-- `defaultSectionStyle` from the template operations service. -/
def defaultSectionStyle : SectionStyle :=
  { fontSize := 12, fontFamily := "Arial, sans-serif", fontWeight := "normal",
    textAlign := "left", color := "#000000", backgroundColor := none,
    padding := 4, border := none }

/-- A test-sized print medium for the concrete examples. -/
def printSize100 : PrintSize :=
  { name := "Test", width := 100, height := 100, type := "card" }

/-- A recipe with no optional content, for the concrete examples. -/
def recipeEmpty : Recipe :=
  { id := "r1", title := "Pancakes", author := none, ingredients := [],
    steps := [], notes := none, images := [], tags := [],
    sourceImage := none, createdAt := "", updatedAt := "" }

/-- An image section whose padding strip (20% of the card) exceeds its
own 5% height, so its available height is negative. -/
def sectionImagePadded : TemplateSection :=
  { id := "img1", type := SectionType.image, position := { x := 5, y := 5 },
    size := { width := 50, height := 5 },
    style := { defaultSectionStyle with padding := 10 }, zIndex := 1 }

/-- A template holding only `sectionImagePadded`. -/
def templateImagePadded : Template :=
  { id := "t1", name := "T", size := printSize100, isDefault := false,
    sections := [sectionImagePadded],
    margins := { top := 10, right := 10, bottom := 10, left := 10 },
    createdAt := "", updatedAt := "" }

/-- An image section with ordinary padding, fitting its card. -/
def sectionImageOk : TemplateSection :=
  { id := "img2", type := SectionType.image, position := { x := 5, y := 5 },
    size := { width := 50, height := 40 }, style := defaultSectionStyle, zIndex := 1 }

/-- A template holding only `sectionImageOk`. -/
def templateImageOk : Template :=
  { id := "t2", name := "T2", size := printSize100, isDefault := false,
    sections := [sectionImageOk],
    margins := { top := 10, right := 10, bottom := 10, left := 10 },
    createdAt := "", updatedAt := "" }

/-- A section requesting the falsy font size `0`, which the estimator
silently replaces by the 12pt base. -/
def sectionFontZero : TemplateSection :=
  { id := "s0", type := SectionType.notes, position := { x := 0, y := 0 },
    size := { width := 100, height := 100 },
    style := { defaultSectionStyle with fontSize := 0 }, zIndex := 1 }

/-- A template with no sections on the test print size. -/
def templatePlain : Template :=
  { id := "tp", name := "P", size := printSize100, isDefault := false, sections := [],
    margins := { top := 10, right := 10, bottom := 10, left := 10 },
    createdAt := "", updatedAt := "" }

/-!
## Template Mutation API

Source (template operations service): `createSection`,
`addSectionToTemplate`, `updateSectionInTemplate`,
`removeSectionFromTemplate`.  The impure `generateId()` and
`new Date().toISOString()` calls are passed in as the `freshId` and
`now` arguments.
-/
/-- `createSection` from the template operations service, at the call
shape `addSectionToTemplate` uses (no style overrides, so the style is
`defaultSectionStyle`). -/
def createSection (freshId : String) (ty : SectionType) (x y width height zIndex : ℚ) :
    TemplateSection :=
  { id := freshId, type := ty, position := { x := x, y := y },
    size := { width := width, height := height }, style := defaultSectionStyle,
    zIndex := zIndex }

/-- `addSectionToTemplate` from the template operations service: defaults
`(10, 10)` / `30×20`, a zIndex one past the current maximum (`0` base),
boundary-constrain, append, re-stamp `updatedAt`. -/
def addSectionToTemplate (t : Template) (ty : SectionType) (pos : Option Position)
    (sz : Option Size) (freshId now : String) : Template :=
  let maxZIndex := t.sections.foldl (fun m s => max m s.zIndex) 0
  let newSection := createSection freshId ty
    (match pos with | some p => p.x | none => 10)
    (match pos with | some p => p.y | none => 10)
    (match sz with | some z => z.width | none => 30)
    (match sz with | some z => z.height | none => 20)
    (maxZIndex + 1)
  { t with
    sections := t.sections ++ [constrainSectionToBoundaries newSection],
    updatedAt := now }

/-- The `Partial<TemplateSection>` argument of `updateSectionInTemplate`:
every field optional. -/
structure TemplateSectionUpdates where
  id : Option String
  type : Option SectionType
  position : Option Position
  size : Option Size
  style : Option SectionStyle
  zIndex : Option ℚ

/-- The spread merge `{ ...section, ...updates }`. -/
def applySectionUpdates (s : TemplateSection) (u : TemplateSectionUpdates) :
    TemplateSection :=
  { id := u.id.getD s.id, type := u.type.getD s.type,
    position := u.position.getD s.position, size := u.size.getD s.size,
    style := u.style.getD s.style, zIndex := u.zIndex.getD s.zIndex }

/-- `updateSectionInTemplate` from the template operations service: merge
the partial update into the section with the given id, re-clamp it, and
re-stamp `updatedAt` (a miss leaves the section list unchanged). -/
def updateSectionInTemplate (t : Template) (sectionId : String)
    (updates : TemplateSectionUpdates) (now : String) : Template :=
  { t with
    sections := t.sections.map fun s =>
      if s.id = sectionId then constrainSectionToBoundaries (applySectionUpdates s updates)
      else s,
    updatedAt := now }

/-- `removeSectionFromTemplate` from the template operations service. -/
def removeSectionFromTemplate (t : Template) (sectionId : String) (now : String) :
    Template :=
  { t with
    sections := t.sections.filter fun s => s.id != sectionId,
    updatedAt := now }

/-!
## Storage-level default-template protection

Source (IndexedDB storage adapter): `deleteTemplate` loads the record,
throws `Error('Cannot delete default template')` when it is a default —
aborting before the store's `delete` runs — and otherwise deletes by
key.  The object store is modelled as an association list keyed by
template id; the result pairs the thrown error message (if any) with the
store state after the call.
-/
/-- The templates object store. -/
structure TemplateStore where
  templates : List (String × Template)
deriving DecidableEq

/-- `getTemplate` from the storage adapter: lookup by id, `null` when
absent. -/
def getTemplate (st : TemplateStore) (id : String) : Option Template :=
  (st.templates.find? fun p => p.1 == id).map fun p => p.2

/-- `deleteTemplate` from the storage adapter: a default template makes
the call throw before any mutation; otherwise the record with the id is
removed (deleting a missing id is a no-op, as in IndexedDB). -/
def deleteTemplate (st : TemplateStore) (id : String) :
    Option String × TemplateStore :=
  match getTemplate st id with
  | some existing =>
      if existing.isDefault then (some "Cannot delete default template", st)
      else (none, ⟨st.templates.filter fun p => p.1 != id⟩)
  | none => (none, ⟨st.templates.filter fun p => p.1 != id⟩)

/-- A stored default template for the C9 witness. -/
def defaultTemplateStored : Template :=
  { id := "default-card", name := "Default Test", size := printSize100,
    isDefault := true, sections := [],
    margins := { top := 10, right := 10, bottom := 10, left := 10 },
    createdAt := "", updatedAt := "" }

/-- A store holding only the default template. -/
def storeWithDefault : TemplateStore :=
  { templates := [("default-card", defaultTemplateStored)] }

/-- First of the two overlapping sections for the C6 witness. -/
def sectionOverlapA : TemplateSection :=
  { id := "a", type := SectionType.title, position := { x := 0, y := 0 },
    size := { width := 10, height := 10 }, style := defaultSectionStyle, zIndex := 1 }

/-- Second of the two overlapping sections for the C6 witness. -/
def sectionOverlapB : TemplateSection :=
  { id := "b", type := SectionType.notes, position := { x := 5, y := 5 },
    size := { width := 10, height := 10 }, style := defaultSectionStyle, zIndex := 2 }

/-- A template with the two overlapping sections. -/
def templateOverlapping : Template :=
  { id := "t6", name := "T6", size := printSize100, isDefault := false,
    sections := [sectionOverlapA, sectionOverlapB],
    margins := { top := 10, right := 10, bottom := 10, left := 10 },
    createdAt := "", updatedAt := "" }

/-- The overlap the detector reports on `templateOverlapping`. -/
def overlapReported : SectionOverlap :=
  { section1Id := "a", section2Id := "b",
    overlapArea := calculateOverlapArea sectionOverlapA sectionOverlapB }

/-- One-dimensional core of the constraint engine: from an extent of at
least 1, the clamped offset `p'` and re-clamped extent `e'` satisfy the
boundary inequalities and are a fixed point of another clamping round. -/
theorem clampDim_spec (e p : ℚ) (he : 1 ≤ e) :
    0 ≤ max 0 (min (100 - e) p) ∧
      max 0 (min (100 - e) p) + max 1 (min (100 - max 0 (min (100 - e) p)) e) ≤ 100 ∧
      1 ≤ max 1 (min (100 - max 0 (min (100 - e) p)) e) ∧
      max 0 (min (100 - max 1 (min (100 - max 0 (min (100 - e) p)) e))
          (max 0 (min (100 - e) p))) = max 0 (min (100 - e) p) ∧
      max 1 (min (100 - max 0 (min (100 - e) p))
          (max 1 (min (100 - max 0 (min (100 - e) p)) e))) =
        max 1 (min (100 - max 0 (min (100 - e) p)) e) := by
  rcases le_total e 100 with hle | hgt
  · -- the requested extent fits: the re-clamped extent is the extent itself
    have hp0 : (0:ℚ) ≤ max 0 (min (100 - e) p) := le_max_left _ _
    have hple : max 0 (min (100 - e) p) ≤ 100 - e := by
      apply max_le (by linarith) (le_trans (min_le_left _ _) le_rfl)
    have hmin : min (100 - max 0 (min (100 - e) p)) e = e :=
      min_eq_right (by linarith)
    have hwe : max 1 (min (100 - max 0 (min (100 - e) p)) e) = e := by
      rw [hmin]; exact max_eq_right he
    refine ⟨hp0, ?_, ?_, ?_, ?_⟩
    · rw [hwe]; linarith
    · rw [hwe]; exact he
    · rw [hwe]
      have : min (100 - e) (max 0 (min (100 - e) p)) = max 0 (min (100 - e) p) :=
        min_eq_right hple
      rw [this]; exact max_eq_right hp0
    · rw [hwe, hmin]; exact max_eq_right he
  · -- the requested extent exceeds the card: offset 0, extent 100
    have h1 : min (100 - e) p ≤ 100 - e := min_le_left _ _
    have hpx : max 0 (min (100 - e) p) = 0 := max_eq_left (by linarith)
    rw [hpx]
    have h100 : min (100 - (0:ℚ)) e = 100 := by
      rw [min_eq_left (by linarith)]; norm_num
    rw [h100]
    have hw : max (1:ℚ) 100 = 100 := max_eq_right (by norm_num)
    rw [hw]
    norm_num

/-- C1, counterexample: on the section with `position.x = 100` and
`size.width = 0`, the output of `constrainSectionToBoundaries` violates
the boundary invariant (its `x + width` is `101`). -/
theorem constrain_boundaryInvariant_counterexample :
    ¬ boundaryInvariant (constrainSectionToBoundaries sectionC1) := by
  intro h
  have hx := h.2.2.1
  simp only [constrainSectionToBoundaries, sectionC1] at hx
  norm_num [min_def, max_def] at hx

/-- C1, amended: for every input section whose requested width and height
are at least the 1% floor, the section returned by
`constrainSectionToBoundaries` satisfies `0 ≤ position.x`,
`0 ≤ position.y`, `position.x + size.width ≤ 100`,
`position.y + size.height ≤ 100`, `size.width ≥ 1`, `size.height ≥ 1`. -/
theorem constrain_boundaryInvariant (s : TemplateSection)
    (hw : 1 ≤ s.size.width) (hh : 1 ≤ s.size.height) :
    boundaryInvariant (constrainSectionToBoundaries s) := by
  obtain ⟨hx0, hxsum, hx1, -, -⟩ := clampDim_spec s.size.width s.position.x hw
  obtain ⟨hy0, hysum, hy1, -, -⟩ := clampDim_spec s.size.height s.position.y hh
  exact ⟨hx0, hy0, hxsum, hysum, hx1, hy1⟩

/-- C1, witness: the amended invariant theorem applied to a concrete
section reaching outside the card. -/
theorem constrain_boundaryInvariant_witness :
    boundaryInvariant (constrainSectionToBoundaries
      { sectionC1 with position := { x := 95, y := -3 },
                       size := { width := 30, height := 120 } }) :=
  constrain_boundaryInvariant _ (by norm_num) (by norm_num)

/-- C4 fails as stated: re-clamping the C1 counterexample moves the
position from 100 to 99, so double application differs from single
application. -/
theorem constrain_idempotent_counterexample :
    ¬ (constrainSectionToBoundaries (constrainSectionToBoundaries sectionC1) =
        constrainSectionToBoundaries sectionC1) := by
  intro h
  have hx := congrArg (fun u : TemplateSection => u.position.x) h
  simp only [constrainSectionToBoundaries, sectionC1] at hx
  norm_num [min_def, max_def] at hx

/-- C4, amended: for every section whose requested width and height are at
least the 1% floor, `constrainSectionToBoundaries` is idempotent. -/
theorem constrain_idempotent (s : TemplateSection)
    (hw : 1 ≤ s.size.width) (hh : 1 ≤ s.size.height) :
    constrainSectionToBoundaries (constrainSectionToBoundaries s) =
      constrainSectionToBoundaries s := by
  obtain ⟨-, -, -, hxfix, hwfix⟩ := clampDim_spec s.size.width s.position.x hw
  obtain ⟨-, -, -, hyfix, hhfix⟩ := clampDim_spec s.size.height s.position.y hh
  simp only [constrainSectionToBoundaries]
  rw [hxfix, hyfix, hwfix, hhfix]

/-- C4, witness: idempotence applied to a concrete out-of-bounds
section. -/
theorem constrain_idempotent_witness :
    constrainSectionToBoundaries (constrainSectionToBoundaries
      { sectionC1 with position := { x := 95, y := -3 },
                       size := { width := 30, height := 120 } }) =
      constrainSectionToBoundaries
        { sectionC1 with position := { x := 95, y := -3 },
                         size := { width := 30, height := 120 } } :=
  constrain_idempotent _ (by norm_num) (by norm_num)

/-- C7: `constrainSectionToBoundaries` computes exactly
`x' = clamp(x, 0, 100 − width)`, `y' = clamp(y, 0, 100 − height)` from
the original size, then `width' = clamp(width, 1, 100 − x')`,
`height' = clamp(height, 1, 100 − y')` from the clamped position; a
requested width (resp. height) above 100 yields position component 0 and
size component 100; `id`, `type`, `style` and `zIndex` are unchanged. -/
theorem constrain_clamp_formula (s : TemplateSection) :
    (constrainSectionToBoundaries s).position.x = clamp s.position.x 0 (100 - s.size.width) ∧
      (constrainSectionToBoundaries s).position.y = clamp s.position.y 0 (100 - s.size.height) ∧
      (constrainSectionToBoundaries s).size.width =
        clamp s.size.width 1 (100 - (constrainSectionToBoundaries s).position.x) ∧
      (constrainSectionToBoundaries s).size.height =
        clamp s.size.height 1 (100 - (constrainSectionToBoundaries s).position.y) ∧
      (100 < s.size.width → (constrainSectionToBoundaries s).position.x = 0 ∧
        (constrainSectionToBoundaries s).size.width = 100) ∧
      (100 < s.size.height → (constrainSectionToBoundaries s).position.y = 0 ∧
        (constrainSectionToBoundaries s).size.height = 100) ∧
      (constrainSectionToBoundaries s).id = s.id ∧
      (constrainSectionToBoundaries s).type = s.type ∧
      (constrainSectionToBoundaries s).style = s.style ∧
      (constrainSectionToBoundaries s).zIndex = s.zIndex := by
  refine ⟨rfl, rfl, rfl, rfl, ?_, ?_, rfl, rfl, rfl, rfl⟩
  · intro hover
    have h1 : min (100 - s.size.width) s.position.x ≤ 100 - s.size.width :=
      min_le_left _ _
    have hpx : max 0 (min (100 - s.size.width) s.position.x) = 0 :=
      max_eq_left (by linarith)
    constructor
    · simp only [constrainSectionToBoundaries]; exact hpx
    · simp only [constrainSectionToBoundaries, hpx]
      rw [sub_zero, min_eq_left (by linarith)]
      exact max_eq_right (by norm_num)
  · intro hover
    have h1 : min (100 - s.size.height) s.position.y ≤ 100 - s.size.height :=
      min_le_left _ _
    have hpy : max 0 (min (100 - s.size.height) s.position.y) = 0 :=
      max_eq_left (by linarith)
    constructor
    · simp only [constrainSectionToBoundaries]; exact hpy
    · simp only [constrainSectionToBoundaries, hpy]
      rw [sub_zero, min_eq_left (by linarith)]
      exact max_eq_right (by norm_num)

/-- The in-range filter on `List.range` yields the tail range the inner
loop walks. -/
theorem filterMap_lt_range (n i : Nat) :
    (List.range n).filterMap (fun j => if i < j then some (i, j) else none) =
      (List.range' (i + 1) (n - (i + 1))).map fun j => (i, j) := by
  induction n with
  | zero => simp
  | succ n ih =>
    rw [List.range_succ, List.filterMap_append, ih]
    by_cases h : i < n
    · rw [show n + 1 - (i + 1) = (n - (i + 1)) + 1 by omega, List.range'_concat,
        List.map_append]
      congr 1
      simp only [List.filterMap_cons, List.filterMap_nil, if_pos h, List.map_cons,
        List.map_nil]
      congr 2
      omega
    · rw [show n + 1 - (i + 1) = n - (i + 1) by omega]
      simp [h]

/-- The embedded double loop emits exactly the filtered image of the
canonical pair enumeration. -/
theorem detectOverlaps_eq_filterMap (t : Template) :
    detectOverlaps t = (indexPairs t.sections.length).filterMap (overlapAt t.sections) := by
  unfold detectOverlaps indexPairs
  rw [List.filterMap_flatMap]
  refine List.flatMap_congr fun i _ => ?_
  rw [filterMap_lt_range, List.filterMap_map]
  rfl

/-- Membership in the canonical pair enumeration is exactly `i < j < n`. -/
theorem mem_indexPairs {n : Nat} {p : Nat × Nat} :
    p ∈ indexPairs n ↔ p.1 < p.2 ∧ p.2 < n := by
  unfold indexPairs
  simp only [List.mem_flatMap, List.mem_filterMap, List.mem_range]
  constructor
  · rintro ⟨i, hi, j, hj, hij⟩
    split at hij
    · obtain rfl := Option.some_injective _ hij
      exact ⟨by assumption, hj⟩
    · exact absurd hij (by simp)
  · rintro ⟨h12, h2⟩
    exact ⟨p.1, lt_trans h12 h2, p.2, h2, by simp [h12]⟩

/-- A flattened map is pairwise-ordered when each block is ordered and
blocks are ordered against one another. -/
theorem pairwise_flatMap_of {α β : Type} {R : β → β → Prop} {f : α → List β}
    {l : List α} (h1 : ∀ a ∈ l, (f a).Pairwise R)
    (h2 : l.Pairwise fun a b => ∀ x ∈ f a, ∀ y ∈ f b, R x y) :
    (l.flatMap f).Pairwise R := by
  induction l with
  | nil => simp
  | cons a l ih =>
    rw [List.flatMap_cons, List.pairwise_append]
    obtain ⟨ha, hl⟩ := List.pairwise_cons.1 h2
    refine ⟨h1 a (by simp), ih (fun b hb => h1 b (by simp [hb])) hl, ?_⟩
    intro x hx y hy
    obtain ⟨b, hb, hyb⟩ := List.mem_flatMap.1 hy
    exact ha b hb x hx y hyb

/-- The canonical pair enumeration is strictly lexicographically
increasing: the double-loop order, with no pair repeated. -/
theorem indexPairs_pairwise (n : Nat) : (indexPairs n).Pairwise pairLexLt := by
  unfold indexPairs
  apply pairwise_flatMap_of
  · intro i _
    rw [List.pairwise_filterMap]
    refine List.Pairwise.imp ?_ (List.pairwise_lt_range n)
    intro a b hab x hx y hy
    split at hx <;> simp only [Option.mem_def, Option.some.injEq] at hx
    · split at hy <;> simp only [Option.mem_def, Option.some.injEq] at hy
      · subst hx; subst hy
        exact Or.inr ⟨rfl, hab⟩
      · exact absurd hy (by simp)
    · exact absurd hx (by simp)
  · refine List.Pairwise.imp ?_ (List.pairwise_lt_range n)
    intro a b hab x hx y hy
    obtain ⟨j, -, hj⟩ := List.mem_filterMap.1 hx
    obtain ⟨k, -, hk⟩ := List.mem_filterMap.1 hy
    by_cases haj : a < j
    · rw [if_pos haj] at hj
      by_cases hbk : b < k
      · rw [if_pos hbk] at hk
        obtain rfl := Option.some_injective _ hj
        obtain rfl := Option.some_injective _ hk
        exact Or.inl hab
      · rw [if_neg hbk] at hk
        exact Option.noConfusion hk
    · rw [if_neg haj] at hj
      exact Option.noConfusion hj

/-- The boolean overlap test agrees with the closed-open non-overlap
convention: touching edges are not overlapping. -/
theorem sectionsOverlap_iff (s1 s2 : TemplateSection) :
    sectionsOverlap s1 s2 = true ↔
      ¬ ((sectionRect s1).right ≤ (sectionRect s2).left ∨
          (sectionRect s2).right ≤ (sectionRect s1).left ∨
          (sectionRect s1).bottom ≤ (sectionRect s2).top ∨
          (sectionRect s2).bottom ≤ (sectionRect s1).top) := by
  unfold sectionsOverlap
  by_cases h : (sectionRect s1).right ≤ (sectionRect s2).left ∨
      (sectionRect s2).right ≤ (sectionRect s1).left ∨
      (sectionRect s1).bottom ≤ (sectionRect s2).top ∨
      (sectionRect s2).bottom ≤ (sectionRect s1).top
  · rw [if_pos h]; simp [h]
  · rw [if_neg h]; simp [h]

/-- The implemented overlap-area computation equals the specification's
formula: geometric intersection area over the smaller section's area as
a percentage, with the zero-area guard. -/
theorem calculateOverlapArea_eq_spec (s1 s2 : TemplateSection) :
    calculateOverlapArea s1 s2 = overlapAreaSpec s1 s2 := by
  simp only [calculateOverlapArea, overlapAreaSpec, intersectionAreaSpec, sectionRect]
  rcases le_or_lt (min (s1.position.x + s1.size.width) (s2.position.x + s2.size.width))
      (max s1.position.x s2.position.x) with hx | hx
  · rw [if_pos (Or.inl hx)]
    rw [max_eq_left (by linarith : min (s1.position.x + s1.size.width)
          (s2.position.x + s2.size.width) - max s1.position.x s2.position.x ≤ 0),
      zero_mul]
    split
    · rfl
    · rw [zero_div, zero_mul]
  · rcases le_or_lt (min (s1.position.y + s1.size.height) (s2.position.y + s2.size.height))
        (max s1.position.y s2.position.y) with hy | hy
    · rw [if_pos (Or.inr hy)]
      rw [max_eq_left (by linarith : min (s1.position.y + s1.size.height)
            (s2.position.y + s2.size.height) - max s1.position.y s2.position.y ≤ 0),
        mul_zero]
      split
      · rfl
      · rw [zero_div, zero_mul]
    · have hw1 : 0 < s1.size.width := by
        have h1 := min_le_left (s1.position.x + s1.size.width) (s2.position.x + s2.size.width)
        have h2 := le_max_left s1.position.x s2.position.x
        linarith
      have hw2 : 0 < s2.size.width := by
        have h1 := min_le_right (s1.position.x + s1.size.width) (s2.position.x + s2.size.width)
        have h2 := le_max_right s1.position.x s2.position.x
        linarith
      have hh1 : 0 < s1.size.height := by
        have h1 := min_le_left (s1.position.y + s1.size.height) (s2.position.y + s2.size.height)
        have h2 := le_max_left s1.position.y s2.position.y
        linarith
      have hh2 : 0 < s2.size.height := by
        have h1 := min_le_right (s1.position.y + s1.size.height) (s2.position.y + s2.size.height)
        have h2 := le_max_right s1.position.y s2.position.y
        linarith
      have hsm : 0 < min (s1.size.width * s1.size.height) (s2.size.width * s2.size.height) :=
        lt_min (mul_pos hw1 hh1) (mul_pos hw2 hh2)
      rw [if_neg (by push_neg; exact ⟨hx, hy⟩), if_pos hsm, if_neg hsm.ne',
        max_eq_right (by linarith : (0:ℚ) ≤ min (s1.position.x + s1.size.width)
          (s2.position.x + s2.size.width) - max s1.position.x s2.position.x),
        max_eq_right (by linarith : (0:ℚ) ≤ min (s1.position.y + s1.size.height)
          (s2.position.y + s2.size.height) - max s1.position.y s2.position.y)]

/-- The overlap-area computation always lands in `[0, 100]`. -/
theorem calculateOverlapArea_bounds (s1 s2 : TemplateSection) :
    0 ≤ calculateOverlapArea s1 s2 ∧ calculateOverlapArea s1 s2 ≤ 100 := by
  simp only [calculateOverlapArea, sectionRect]
  rcases le_or_lt (min (s1.position.x + s1.size.width) (s2.position.x + s2.size.width))
      (max s1.position.x s2.position.x) with hx | hx
  · rw [if_pos (Or.inl hx)]; norm_num
  · rcases le_or_lt (min (s1.position.y + s1.size.height) (s2.position.y + s2.size.height))
        (max s1.position.y s2.position.y) with hy | hy
    · rw [if_pos (Or.inr hy)]; norm_num
    · have hw1 : 0 < s1.size.width := by
        have h1 := min_le_left (s1.position.x + s1.size.width) (s2.position.x + s2.size.width)
        have h2 := le_max_left s1.position.x s2.position.x
        linarith
      have hw2 : 0 < s2.size.width := by
        have h1 := min_le_right (s1.position.x + s1.size.width) (s2.position.x + s2.size.width)
        have h2 := le_max_right s1.position.x s2.position.x
        linarith
      have hh1 : 0 < s1.size.height := by
        have h1 := min_le_left (s1.position.y + s1.size.height) (s2.position.y + s2.size.height)
        have h2 := le_max_left s1.position.y s2.position.y
        linarith
      have hh2 : 0 < s2.size.height := by
        have h1 := min_le_right (s1.position.y + s1.size.height) (s2.position.y + s2.size.height)
        have h2 := le_max_right s1.position.y s2.position.y
        linarith
      have hsm : 0 < min (s1.size.width * s1.size.height) (s2.size.width * s2.size.height) :=
        lt_min (mul_pos hw1 hh1) (mul_pos hw2 hh2)
      rw [if_neg (by push_neg; exact ⟨hx, hy⟩), if_pos hsm]
      have hdx1 : min (s1.position.x + s1.size.width) (s2.position.x + s2.size.width) -
          max s1.position.x s2.position.x ≤ s1.size.width := by
        have h1 := min_le_left (s1.position.x + s1.size.width) (s2.position.x + s2.size.width)
        have h2 := le_max_left s1.position.x s2.position.x
        linarith
      have hdx2 : min (s1.position.x + s1.size.width) (s2.position.x + s2.size.width) -
          max s1.position.x s2.position.x ≤ s2.size.width := by
        have h1 := min_le_right (s1.position.x + s1.size.width) (s2.position.x + s2.size.width)
        have h2 := le_max_right s1.position.x s2.position.x
        linarith
      have hdy1 : min (s1.position.y + s1.size.height) (s2.position.y + s2.size.height) -
          max s1.position.y s2.position.y ≤ s1.size.height := by
        have h1 := min_le_left (s1.position.y + s1.size.height) (s2.position.y + s2.size.height)
        have h2 := le_max_left s1.position.y s2.position.y
        linarith
      have hdy2 : min (s1.position.y + s1.size.height) (s2.position.y + s2.size.height) -
          max s1.position.y s2.position.y ≤ s2.size.height := by
        have h1 := min_le_right (s1.position.y + s1.size.height) (s2.position.y + s2.size.height)
        have h2 := le_max_right s1.position.y s2.position.y
        linarith
      have hinter : (min (s1.position.x + s1.size.width) (s2.position.x + s2.size.width) -
            max s1.position.x s2.position.x) *
          (min (s1.position.y + s1.size.height) (s2.position.y + s2.size.height) -
            max s1.position.y s2.position.y) ≤
          min (s1.size.width * s1.size.height) (s2.size.width * s2.size.height) := by
        refine le_min ?_ ?_
        · exact mul_le_mul hdx1 hdy1 (by linarith) hw1.le
        · exact mul_le_mul hdx2 hdy2 (by linarith) hw2.le
      have hratio : (min (s1.position.x + s1.size.width) (s2.position.x + s2.size.width) -
            max s1.position.x s2.position.x) *
          (min (s1.position.y + s1.size.height) (s2.position.y + s2.size.height) -
            max s1.position.y s2.position.y) /
          min (s1.size.width * s1.size.height) (s2.size.width * s2.size.height) ≤ 1 :=
        (div_le_one hsm).mpr hinter
      have hnn : (0:ℚ) ≤ (min (s1.position.x + s1.size.width) (s2.position.x + s2.size.width) -
            max s1.position.x s2.position.x) *
          (min (s1.position.y + s1.size.height) (s2.position.y + s2.size.height) -
            max s1.position.y s2.position.y) /
          min (s1.size.width * s1.size.height) (s2.size.width * s2.size.height) :=
        div_nonneg (mul_nonneg (by linarith) (by linarith)) hsm.le
      constructor
      · nlinarith
      · nlinarith

/-- C2: `detectOverlaps` equals the filtered image of the canonical index
pair enumeration (a pair is reported iff the closed-open geometric test
passes), the enumeration lists each pair `i < j < n` exactly once in
strictly ascending double-loop order, and the boolean test is exactly
the closed-open convention (touching edges, including degenerate
rectangles, do not overlap). -/
theorem detectOverlaps_characterization (t : Template) :
    detectOverlaps t = (indexPairs t.sections.length).filterMap (overlapAt t.sections) ∧
      (indexPairs t.sections.length).Pairwise pairLexLt ∧
      (∀ p : Nat × Nat, p ∈ indexPairs t.sections.length ↔
        p.1 < p.2 ∧ p.2 < t.sections.length) ∧
      (∀ s1 s2 : TemplateSection, sectionsOverlap s1 s2 = true ↔
        ¬ ((sectionRect s1).right ≤ (sectionRect s2).left ∨
            (sectionRect s2).right ≤ (sectionRect s1).left ∨
            (sectionRect s1).bottom ≤ (sectionRect s2).top ∨
            (sectionRect s2).bottom ≤ (sectionRect s1).top)) :=
  ⟨detectOverlaps_eq_filterMap t, indexPairs_pairwise _,
    fun _ => mem_indexPairs, sectionsOverlap_iff⟩

/-- C6: every overlap reported by `detectOverlaps` has `overlapArea` in
`[0, 100]`, and that area equals the geometric intersection area divided
by the smaller of the two sections' areas as a percentage (`0` when the
smaller area is `0`), for the pair of sections it names. -/
theorem detectOverlaps_area_bounds (t : Template) (o : SectionOverlap)
    (ho : o ∈ detectOverlaps t) :
    0 ≤ o.overlapArea ∧ o.overlapArea ≤ 100 ∧
      ∃ s1 ∈ t.sections, ∃ s2 ∈ t.sections,
        o.section1Id = s1.id ∧ o.section2Id = s2.id ∧
          o.overlapArea = overlapAreaSpec s1 s2 := by
  rw [detectOverlaps_eq_filterMap] at ho
  obtain ⟨p, -, hp⟩ := List.mem_filterMap.1 ho
  rcases h1 : t.sections[p.1]? with - | s1
  · simp [overlapAt, h1] at hp
  rcases h2 : t.sections[p.2]? with - | s2
  · simp [overlapAt, h1, h2] at hp
  simp only [overlapAt, h1, h2] at hp
  by_cases hov : sectionsOverlap s1 s2 = true
  · rw [if_pos hov] at hp
    obtain rfl := Option.some_injective _ hp
    obtain ⟨hb1, hb2⟩ := calculateOverlapArea_bounds s1 s2
    exact ⟨hb1, hb2, s1, List.getElem?_mem h1, s2, List.getElem?_mem h2, rfl, rfl,
      calculateOverlapArea_eq_spec s1 s2⟩
  · rw [if_neg hov] at hp
    exact Option.noConfusion hp

/-- Folding the per-line counter is summing the per-line counts. -/
theorem foldl_line_count (g : String → ℤ) (l : List String) :
    ∀ acc : ℤ,
      l.foldl (fun acc line => if line.length = 0 then acc + 1 else acc + g line) acc =
        acc + (l.map fun line => if line.length = 0 then (1 : ℤ) else g line).sum := by
  induction l with
  | nil => intro acc; simp
  | cons x xs ih =>
      intro acc
      rw [List.foldl_cons, List.map_cons, List.sum_cons, ih]
      by_cases h : x.length = 0
      · rw [if_pos h, if_pos h]; ring
      · rw [if_neg h, if_neg h]; ring

/-- C3: the aggregate flag, the overflowing subset and the per-section
fields of `detectOverflow` are mutually consistent exactly as specified. -/
theorem detectOverflow_consistency (r : Recipe) (t : Template) :
    ((detectOverflow r t).hasOverflow = true ↔
        (detectOverflow r t).overflowingSections ≠ []) ∧
      (detectOverflow r t).overflowingSections =
        (detectOverflow r t).sections.filter (fun sr => sr.hasOverflow) ∧
      ∀ sr ∈ (detectOverflow r t).sections,
        (sr.hasOverflow = true ↔ sr.availableHeight < sr.estimatedContentHeight) ∧
          (sr.hasOverflow = true →
            sr.overflowAmount = sr.estimatedContentHeight - sr.availableHeight ∧
              0 < sr.overflowAmount) ∧
          (sr.hasOverflow = false → sr.overflowAmount = 0) := by
  refine ⟨?_, rfl, ?_⟩
  · simp only [detectOverflow]
    rw [decide_eq_true_eq]
    exact List.length_pos
  · intro sr hsr
    simp only [detectOverflow] at hsr
    obtain ⟨s, -, rfl⟩ := List.mem_map.1 hsr
    simp only [detectSectionOverflow]
    refine ⟨by rw [decide_eq_true_eq], ?_, ?_⟩
    · intro hov
      have hlt := of_decide_eq_true hov
      rw [if_pos hov]
      exact ⟨rfl, sub_pos.mpr hlt⟩
    · intro hov
      rw [if_neg (by rw [hov]; exact Bool.false_ne_true)]

/-- C5 fails as stated: an image section whose padding exceeds its height
has a negative available height, and the zero estimated height of its
empty content is strictly greater, so the section is flagged as
overflowing. -/
theorem image_overflow_counterexample :
    ∃ sr ∈ (detectOverflow recipeEmpty templateImagePadded).sections,
      sr.sectionType = SectionType.image ∧ sr.hasOverflow = true := by
  refine ⟨detectSectionOverflow recipeEmpty sectionImagePadded templateImagePadded,
    by simp [detectOverflow, templateImagePadded], rfl, ?_⟩
  simp only [detectSectionOverflow, sectionImagePadded, templateImagePadded, printSize100,
    getSectionContent]
  norm_num [estimateContentHeight, defaultSectionStyle]

/-- C5, amended: an image section's per-section result is never flagged as
overflowing, provided its available height (its height minus the padding
strip) is not negative. -/
theorem image_sections_no_overflow (r : Recipe) (t : Template) (sr : SectionOverflowResult)
    (hsr : sr ∈ (detectOverflow r t).sections) (hty : sr.sectionType = SectionType.image)
    (hav : 0 ≤ sr.availableHeight) :
    sr.hasOverflow = false := by
  simp only [detectOverflow] at hsr
  obtain ⟨s, -, rfl⟩ := List.mem_map.1 hsr
  simp only [detectSectionOverflow] at hty hav ⊢
  rw [hty]
  have hest : estimateContentHeight (getSectionContent SectionType.image r) s t
      (s.size.width - s.style.padding * 2 / t.size.height * 100) = 0 := by
    simp [getSectionContent, estimateContentHeight]
  rw [hest]
  exact decide_eq_false (not_lt.mpr hav)

/-- C5, witness: the amended theorem applied to a concrete image section
with nonnegative available height. -/
theorem image_sections_no_overflow_witness :
    (detectSectionOverflow recipeEmpty sectionImageOk templateImageOk).hasOverflow = false :=
  image_sections_no_overflow recipeEmpty templateImageOk _
    (by simp [detectOverflow, templateImageOk])
    rfl
    (by norm_num [detectSectionOverflow, sectionImageOk, templateImageOk, printSize100,
      defaultSectionStyle])

/-- C8 fails as stated: with a style font size of `0`, the claimed formula
(read with the literal style font size) collapses to `0`, while the
implementation falls back to the 12pt base and returns `5.04`. -/
theorem estimate_formula_counterexample :
    estimateContentHeight "a" sectionFontZero templatePlain 100 ≠
      (if ("a" : String).length = 0 then 0
       else estimateContentHeightSpec "a" sectionFontZero.style.fontSize
         templatePlain.size.width templatePlain.size.height 100) := by
  have hspec : estimateContentHeightSpec "a" sectionFontZero.style.fontSize
      templatePlain.size.width templatePlain.size.height 100 = 0 := by
    simp [estimateContentHeightSpec, sectionFontZero, defaultSectionStyle]
  rw [if_neg (by decide), hspec]
  have hsplit : splitLines "a" = ["a"] := rfl
  have hlen : ("a" : String).length = 1 := rfl
  simp only [estimateContentHeight, sectionFontZero, templatePlain, printSize100,
    defaultSectionStyle, hsplit, hlen, List.foldl_cons, List.foldl_nil]
  norm_num

/-- C8, amended: the estimator returns `0` for empty content and otherwise
exactly the claimed formula, with the claimed `fontSize` read as the
section's style font size when that is nonzero and the 12pt base when it
is zero. -/
theorem estimateContentHeight_formula (content : String) (s : TemplateSection)
    (t : Template) (awp : ℚ) :
    estimateContentHeight content s t awp =
      if content.length = 0 then 0
      else estimateContentHeightSpec content
        (if s.style.fontSize = 0 then 12 else s.style.fontSize)
        t.size.width t.size.height awp := by
  by_cases h : content.length = 0
  · rw [if_pos h]
    simp [estimateContentHeight, h]
  · rw [if_neg h]
    simp only [estimateContentHeight, estimateContentHeightSpec, if_neg h]
    rw [foldl_line_count]
    push_cast
    ring

/-- C10: the three mutation operations change only `sections` and
`updatedAt` — `id`, `name`, `size`, `isDefault`, `margins` and
`createdAt` are preserved — and each re-stamps `updatedAt` to the
current time unconditionally, in particular `updateSectionInTemplate`
re-stamps even when no section matches the given id. -/
theorem mutation_frame (t : Template) (ty : SectionType) (pos : Option Position)
    (sz : Option Size) (freshId now sectionId : String)
    (updates : TemplateSectionUpdates) :
    ((addSectionToTemplate t ty pos sz freshId now).id = t.id ∧
      (addSectionToTemplate t ty pos sz freshId now).name = t.name ∧
      (addSectionToTemplate t ty pos sz freshId now).size = t.size ∧
      (addSectionToTemplate t ty pos sz freshId now).isDefault = t.isDefault ∧
      (addSectionToTemplate t ty pos sz freshId now).margins = t.margins ∧
      (addSectionToTemplate t ty pos sz freshId now).createdAt = t.createdAt ∧
      (addSectionToTemplate t ty pos sz freshId now).updatedAt = now) ∧
    ((updateSectionInTemplate t sectionId updates now).id = t.id ∧
      (updateSectionInTemplate t sectionId updates now).name = t.name ∧
      (updateSectionInTemplate t sectionId updates now).size = t.size ∧
      (updateSectionInTemplate t sectionId updates now).isDefault = t.isDefault ∧
      (updateSectionInTemplate t sectionId updates now).margins = t.margins ∧
      (updateSectionInTemplate t sectionId updates now).createdAt = t.createdAt ∧
      (updateSectionInTemplate t sectionId updates now).updatedAt = now) ∧
    ((removeSectionFromTemplate t sectionId now).id = t.id ∧
      (removeSectionFromTemplate t sectionId now).name = t.name ∧
      (removeSectionFromTemplate t sectionId now).size = t.size ∧
      (removeSectionFromTemplate t sectionId now).isDefault = t.isDefault ∧
      (removeSectionFromTemplate t sectionId now).margins = t.margins ∧
      (removeSectionFromTemplate t sectionId now).createdAt = t.createdAt ∧
      (removeSectionFromTemplate t sectionId now).updatedAt = now) :=
  ⟨⟨rfl, rfl, rfl, rfl, rfl, rfl, rfl⟩, ⟨rfl, rfl, rfl, rfl, rfl, rfl, rfl⟩,
    ⟨rfl, rfl, rfl, rfl, rfl, rfl, rfl⟩⟩

/-- C9: deleting a stored default template fails with the distinguishable
error message, leaves the store untouched, and a subsequent lookup still
returns the template unchanged. -/
theorem deleteTemplate_default_protected (st : TemplateStore) (id : String)
    (tpl : Template) (hget : getTemplate st id = some tpl)
    (hdef : tpl.isDefault = true) :
    (deleteTemplate st id).1 = some "Cannot delete default template" ∧
      (deleteTemplate st id).2 = st ∧
      getTemplate (deleteTemplate st id).2 id = some tpl := by
  simp only [deleteTemplate, hget]
  rw [if_pos hdef]
  exact ⟨rfl, rfl, hget⟩

/-- C9, witness: the protection theorem applied to the concrete store. -/
theorem deleteTemplate_default_protected_witness :
    (deleteTemplate storeWithDefault "default-card").1 =
        some "Cannot delete default template" ∧
      (deleteTemplate storeWithDefault "default-card").2 = storeWithDefault ∧
      getTemplate (deleteTemplate storeWithDefault "default-card").2 "default-card" =
        some defaultTemplateStored :=
  deleteTemplate_default_protected storeWithDefault "default-card" defaultTemplateStored
    rfl rfl

/-- C6, witness: the bounds theorem applied to the overlap reported on the
concrete overlapping template. -/
theorem detectOverlaps_area_bounds_witness :
    0 ≤ overlapReported.overlapArea ∧ overlapReported.overlapArea ≤ 100 ∧
      ∃ s1 ∈ templateOverlapping.sections, ∃ s2 ∈ templateOverlapping.sections,
        overlapReported.section1Id = s1.id ∧ overlapReported.section2Id = s2.id ∧
          overlapReported.overlapArea = overlapAreaSpec s1 s2 :=
  detectOverlaps_area_bounds templateOverlapping overlapReported (by
    rw [detectOverlaps_eq_filterMap]
    refine List.mem_filterMap.2 ⟨(0, 1), ?_, ?_⟩
    · rw [mem_indexPairs]
      constructor <;> norm_num [templateOverlapping]
    · simp only [overlapAt, templateOverlapping]
      norm_num [sectionsOverlap, sectionRect, sectionOverlapA, sectionOverlapB,
        overlapReported])

end RecipeArchive

